import Mathlib

/-!
Shallow embedding of the query-building and dispatch logic of
`src/server.ts` (mcp-server-mssql).  JavaScript runtime values are
modelled by the inductive `Value`; filter values (which may be scalars
or arrays, distinguished at runtime by `Array.isArray`) by
`FilterValue`.  The six public tool functions are modelled as pure
functions over an `Env` describing the outcomes of the external
collaborators (`connectToDb`, `request.query`, `request.bulk`), each
returning its result together with the list of connection-lifecycle
events it performed.
-/

namespace Mssql

/-- A JavaScript runtime value, as far as the server manipulates them. -/
inductive Value
  | vNull
  | vUndefined
  | vInt (n : Int)
  | vStr (s : String)
  | vBool (b : Bool)
deriving Repr, DecidableEq

/-- The `value` field of a filter clause: `Array.isArray` distinguishes
arrays from scalars at runtime. -/
inductive FilterValue
  | scalar (v : Value)
  | arr (vs : List Value)
deriving Repr, DecidableEq

/-- A filter clause `{ operator, value }` from `ReadTableRowsArgs.filters`. -/
structure FilterClause where
  operator : String
  value : FilterValue
deriving Repr, DecidableEq

/-- A named parameter registered with `request.input`; `hint` is the
explicit `sql.*` type when one is passed (e.g. `NVarChar` for LIKE). -/
structure Binding where
  name : String
  value : FilterValue
  hint : Option String
deriving Repr, DecidableEq

/-- A result row: a JavaScript object, column name to value. -/
abbrev Row : Type := List (String × Value)

/-- `String.prototype.toUpperCase` (ASCII, which covers all operators). -/
def jsToUpper (s : String) : String := String.mk (s.data.map Char.toUpper)

/-- `Array.prototype.join(sep)`. -/
def joinSep (sep : String) : List String → String
  | [] => ""
  | [x] => x
  | x :: y :: xs => x ++ sep ++ joinSep sep (y :: xs)

/-- JavaScript string conversion of a value (used only in warning text). -/
def jsShowValue : Value → String
  | .vNull => "null"
  | .vUndefined => "undefined"
  | .vInt n => toString n
  | .vStr s => s
  | .vBool b => if b then "true" else "false"

/-- JavaScript string conversion of a filter value (template literal). -/
def jsShowFilterValue : FilterValue → String
  | .scalar v => jsShowValue v
  | .arr vs => joinSep "," (vs.map jsShowValue)

/-- Warning logged when an IN filter has a non-array or empty-array value. -/
def inWarning (col : String) (v : FilterValue) : String :=
  "Ignoring IN filter for column \"" ++ col ++ "\" due to invalid value: " ++
    jsShowFilterValue v

/-- Warning logged when a filter operator is not supported. -/
def unsupportedWarning (op col : String) : String :=
  "Unsupported filter operator \"" ++ op ++ "\" for column \"" ++ col ++
    "\". Ignoring."

/-- Warning logged when limit/offset are used without ORDER BY. -/
def paginationWarning : String :=
  "Pagination (limit/offset) used without explicit ORDER BY. Ordering by (SELECT 1), which might be inefficient or non-deterministic."

/-- The comparison operators of the switch in `read_table_rows`. -/
def scalarOps : List String := ["=", ">", "<", ">=", "<=", "!=", "<>"]

/-- One iteration of the filter loop in `read_table_rows`: given the
current `paramIndex` and the entry `(col, filter)`, produce the rendered
clause (`none` when the clause is dropped), the parameter bindings
registered via `request.input`, and the warnings logged. -/
def filterStep (idx : Nat) (col : String) (f : FilterClause) :
    Option String × List Binding × List String :=
  let paramName := "filterParam" ++ toString idx
  let base := "[" ++ col ++ "]"
  let up := jsToUpper f.operator
  if up ∈ scalarOps then
    (some (base ++ " " ++ f.operator ++ " @" ++ paramName),
     [⟨paramName, f.value, none⟩], [])
  else if up = "LIKE" then
    (some (base ++ " LIKE @" ++ paramName),
     [⟨paramName, f.value, some "NVarChar"⟩], [])
  else if up = "IN" then
    match f.value with
    | .arr vs =>
      if vs.length > 0 then
        (some (base ++ " IN (" ++
           joinSep ", " (vs.enum.map
             (fun p => "@" ++ paramName ++ "_" ++ toString p.1)) ++ ")"),
         vs.enum.map
           (fun p => ⟨paramName ++ "_" ++ toString p.1, .scalar p.2, none⟩),
         [])
      else (none, [], [inWarning col f.value])
    | .scalar v => (none, [], [inWarning col (.scalar v)])
  else (none, [], [unsupportedWarning f.operator col])

/-- The whole filter loop: `paramIndex` advances once per entry whether
or not the clause is kept.  Returns the kept clauses, all bindings, and
all warnings, in iteration order. -/
def processFilters (idx : Nat) :
    List (String × FilterClause) → List String × List Binding × List String
  | [] => ([], [], [])
  | (col, f) :: rest =>
    let step := filterStep idx col f
    let tail := processFilters (idx + 1) rest
    (match step.1 with
     | some c => c :: tail.1
     | none => tail.1,
     step.2.1 ++ tail.2.1,
     step.2.2 ++ tail.2.2)

/-- Arguments of the `read_table_rows` tool. -/
structure ReadArgs where
  table_name : String
  columns : Option (List String) := none
  filters : Option (List (String × FilterClause)) := none
  limit : Option Int := none
  offset : Option Int := none
  order_by : Option (List (String × String)) := none

/-- The column list of the SELECT: `*` when `columns` is absent or empty. -/
def selectColumnsStr (columns : Option (List String)) : String :=
  match columns with
  | some cs =>
    if cs.length > 0 then joinSep ", " (cs.map (fun c => "[" ++ c ++ "]"))
    else "*"
  | none => "*"

/-- `SELECT <columns> FROM [<table>]`. -/
def selectFromClause (args : ReadArgs) : String :=
  "SELECT " ++ selectColumnsStr args.columns ++ " FROM [" ++ args.table_name ++ "]"

/-- One ORDER BY term: direction is DESC exactly when the uppercased
input equals DESC, otherwise ASC. -/
def orderClause (col dir : String) : String :=
  "[" ++ col ++ "] " ++ (if jsToUpper dir = "DESC" then "DESC" else "ASC")

/-- The rendered ORDER BY terms of a request, in insertion order. -/
def orderClausesOf (args : ReadArgs) : List String :=
  (args.order_by.getD []).map (fun p => orderClause p.1 p.2)

/-- The `FETCH NEXT` fragment: present only when a positive limit is given. -/
def fetchClause : Option Int → String
  | some l => if l > 0 then " FETCH NEXT " ++ toString l ++ " ROWS ONLY" else ""
  | none => ""

/-- The WHERE fragment (empty when no clauses survive). -/
def whereClauseOf (args : ReadArgs) : String :=
  let cs := (processFilters 0 (args.filters.getD [])).1
  if cs.length > 0 then " WHERE " ++ joinSep " AND " cs else ""

/-- Result of building the SELECT statement: query text, parameter
bindings, and warnings logged. -/
structure SelectBuild where
  query : String
  bindings : List Binding
  warnings : List String
deriving Repr, DecidableEq

/-- The ORDER BY / OFFSET / FETCH tail of the SELECT: the synthetic
`ORDER BY (SELECT 1)` replaces a missing ORDER BY only when limit or
offset is given; the OFFSET count defaults to 0. -/
def orderPagSuffix (args : ReadArgs) : String :=
  let ords := orderClausesOf args
  let paginated := args.limit.isSome || args.offset.isSome
  (if ords.length > 0 then " ORDER BY " ++ joinSep ", " ords
   else if paginated then " ORDER BY (SELECT 1)" else "") ++
  (if paginated then
     " OFFSET " ++ toString (args.offset.getD 0) ++ " ROWS" ++
       fetchClause args.limit
   else "")

/-- The warning (if any) emitted by the ORDER BY synthesis. -/
def orderPagWarnings (args : ReadArgs) : List String :=
  if (orderClausesOf args).length > 0 then []
  else if args.limit.isSome || args.offset.isSome then [paginationWarning]
  else []

/-- The query-building part of `read_table_rows` (everything between
`pool.request()` and `request.query(query)`). -/
def buildSelect (args : ReadArgs) : SelectBuild :=
  let fres := processFilters 0 (args.filters.getD [])
  ⟨selectFromClause args ++ whereClauseOf args ++ orderPagSuffix args ++ ";",
   fres.2.1,
   fres.2.2 ++ orderPagWarnings args⟩

/-- The SET/WHERE builder of `update_table_records`: one shared
`paramIndex` sequence covers `setParam<i>` then `filterParam<i>`. -/
def buildUpdateQuery (table : String)
    (updates filters : List (String × Value)) : String × List Binding :=
  let setClauses := updates.enum.map
    (fun p => "[" ++ p.2.1 ++ "] = @setParam" ++ toString p.1)
  let setBinds : List Binding := updates.enum.map
    (fun p => ⟨"setParam" ++ toString p.1, .scalar p.2.2, none⟩)
  let k := updates.length
  let whereClauses := filters.enum.map
    (fun p => "[" ++ p.2.1 ++ "] = @filterParam" ++ toString (k + p.1))
  let whereBinds : List Binding := filters.enum.map
    (fun p => ⟨"filterParam" ++ toString (k + p.1), .scalar p.2.2, none⟩)
  ("UPDATE [" ++ table ++ "] SET " ++ joinSep ", " setClauses ++
     " WHERE " ++ joinSep " AND " whereClauses ++
     "; SELECT @@ROWCOUNT AS RowsAffected;",
   setBinds ++ whereBinds)

/-- The WHERE builder of `delete_table_records`. -/
def buildDeleteQuery (table : String)
    (filters : List (String × Value)) : String × List Binding :=
  let whereClauses := filters.enum.map
    (fun p => "[" ++ p.2.1 ++ "] = @filterParam" ++ toString p.1)
  let whereBinds : List Binding := filters.enum.map
    (fun p => ⟨"filterParam" ++ toString p.1, .scalar p.2.2, none⟩)
  ("DELETE FROM [" ++ table ++ "] WHERE " ++ joinSep " AND " whereClauses ++
     "; SELECT @@ROWCOUNT AS RowsAffected;",
   whereBinds)

/-- `result.recordset[0]?.RowsAffected ?? 0`: the nullish-coalescing
default applies when the row is absent, the field is absent, or the
field is null/undefined. -/
def extractRowsAffected (rs : List Row) : Value :=
  match rs with
  | [] => .vInt 0
  | row :: _ =>
    match List.lookup "RowsAffected" row with
    | some .vNull => .vInt 0
    | some .vUndefined => .vInt 0
    | some v => v
    | none => .vInt 0

/-- Connection-lifecycle events of one tool call: a successful
`connectToDb` (acquire), the driver call (`request.query` or
`request.bulk`), and the `finally`-block `closePoolSafely` (release). -/
inductive Event
  | acquire
  | execute
  | release
deriving Repr, DecidableEq

/-- Outcomes of the external collaborators for one call: whether
`connectToDb` succeeds (and its error message when it fails), the
outcome of `request.query` on a given statement and bindings, and the
outcome of `request.bulk` (rows affected) on a bulk table. -/
structure Env where
  connectOk : Bool
  connectErr : String
  exec : String → List Binding → Except String (List Row)
  bulkExec : String → List String → List (List Value) → Except String Int

/-- Result shape of the three mutation tools. -/
structure MutationResult where
  status : String
  count : Value
  message : Option String
deriving Repr, DecidableEq

/-- Arguments of `list_tables`. -/
structure ListTablesArgs where
  schema : Option String := none

/-- Arguments of `get_table_schema`. -/
structure GetTableSchemaArgs where
  table_name : String
  schema : Option String := none

/-- Arguments of `create_table_records`; `records` is optional at
runtime even though the TypeScript type requires it. -/
structure CreateArgs where
  table_name : String
  records : Option (List Row) := none

/-- Arguments of `update_table_records`. -/
structure UpdateArgs where
  table_name : String
  updates : Option (List (String × Value)) := none
  filters : Option (List (String × Value)) := none

/-- Arguments of `delete_table_records`. -/
structure DeleteArgs where
  table_name : String
  filters : Option (List (String × Value)) := none

/-- JavaScript truthiness of the optional `schema` string argument
(`if (args.schema)`): absent and empty string are both falsy. -/
def schemaTruthy : Option String → Bool
  | some s => s ≠ ""
  | none => false

/-- The `try`/`finally` shape shared by all six operations: a failed
`connectToDb` skips the body and releases nothing; otherwise the body
runs (the driver call is attempted whether it succeeds or throws) and
`closePoolSafely` releases the connection on every exit path. -/
def withConnection {α : Type} (env : Env) (body : Except String α) :
    Except String α × List Event :=
  if env.connectOk then (body, [.acquire, .execute, .release])
  else (.error env.connectErr, [])

/-- `list_tables`: result plus connection events. -/
def list_tables (env : Env) (args : ListTablesArgs) :
    Except String (List Value) × List Event :=
  let withSchema := schemaTruthy args.schema
  let q := "SELECT TABLE_NAME FROM INFORMATION_SCHEMA.TABLES WHERE TABLE_TYPE = 'BASE TABLE'" ++
    (if withSchema then " AND TABLE_SCHEMA = @schema" else "") ++
    " ORDER BY TABLE_NAME;"
  let binds : List Binding :=
    if withSchema then
      [⟨"schema", .scalar (.vStr (args.schema.getD "")), some "NVarChar"⟩]
    else []
  withConnection env ((env.exec q binds).map
    (fun rs => rs.map (fun row => (List.lookup "TABLE_NAME" row).getD .vUndefined)))

/-- `get_table_schema`: result plus connection events. -/
def get_table_schema (env : Env) (args : GetTableSchemaArgs) :
    Except String (List Row) × List Event :=
  let withSchema := schemaTruthy args.schema
  let q := "SELECT COLUMN_NAME, DATA_TYPE, IS_NULLABLE, CHARACTER_MAXIMUM_LENGTH, NUMERIC_PRECISION, NUMERIC_SCALE, COLUMN_DEFAULT FROM INFORMATION_SCHEMA.COLUMNS WHERE TABLE_NAME = @table_name" ++
    (if withSchema then " AND TABLE_SCHEMA = @schema" else "") ++
    " ORDER BY ORDINAL_POSITION;"
  let binds : List Binding :=
    ⟨"table_name", .scalar (.vStr args.table_name), some "NVarChar"⟩ ::
      (if withSchema then
        [⟨"schema", .scalar (.vStr (args.schema.getD "")), some "NVarChar"⟩]
       else [])
  withConnection env (env.exec q binds)

/-- `read_table_rows`: builds the SELECT after acquiring the
connection, executes it, and always releases. -/
def read_table_rows (env : Env) (args : ReadArgs) :
    Except String (List Row) × List Event :=
  withConnection env (env.exec (buildSelect args).query (buildSelect args).bindings)

/-- The `sql.Table` built by `create_table_records`: path, columns from
the first record's keys, and rows aligned to those columns. -/
def buildBulkTable (args : CreateArgs) :
    String × List String × List (List Value) :=
  let records := args.records.getD []
  let firstRecord : Row := records.headD []
  let columns := firstRecord.map Prod.fst
  ("[" ++ args.table_name ++ "]",
   columns,
   records.map (fun r => columns.map (fun c => (List.lookup c r).getD .vUndefined)))

/-- `create_table_records`: the empty-records guard throws before the
connection is opened. -/
def create_table_records (env : Env) (args : CreateArgs) :
    Except String MutationResult × List Event :=
  if (args.records.getD []).length = 0 then
    (.error "No records provided to insert.", [])
  else
    let t := buildBulkTable args
    withConnection env ((env.bulkExec t.1 t.2.1 t.2.2).map
      (fun n => ⟨"Success", .vInt n, none⟩))

/-- `update_table_records`: empty filters fail before any I/O; empty
updates short-circuit with a zero-count success before any I/O. -/
def update_table_records (env : Env) (args : UpdateArgs) :
    Except String MutationResult × List Event :=
  if (args.filters.getD []).length = 0 then
    (.error "Filters are required for update operations to prevent accidental full table updates.",
     [])
  else if (args.updates.getD []).length = 0 then
    (.ok ⟨"Success", .vInt 0, some "No update values provided."⟩, [])
  else
    let b := buildUpdateQuery args.table_name (args.updates.getD [])
      (args.filters.getD [])
    withConnection env ((env.exec b.1 b.2).map
      (fun rs => ⟨"Success", extractRowsAffected rs, none⟩))

/-- `delete_table_records`: empty filters fail before any I/O. -/
def delete_table_records (env : Env) (args : DeleteArgs) :
    Except String MutationResult × List Event :=
  if (args.filters.getD []).length = 0 then
    (.error "Filters are required for delete operations to prevent accidental full table deletion.",
     [])
  else
    let b := buildDeleteQuery args.table_name (args.filters.getD [])
    withConnection env ((env.exec b.1 b.2).map
      (fun rs => ⟨"Success", extractRowsAffected rs, none⟩))

/-- One call to any of the six public operations. -/
inductive OpCall
  | listTables (a : ListTablesArgs)
  | getTableSchema (a : GetTableSchemaArgs)
  | readTableRows (a : ReadArgs)
  | createRecords (a : CreateArgs)
  | updateRecords (a : UpdateArgs)
  | deleteRecords (a : DeleteArgs)

/-- The connection-lifecycle events of one call. -/
def opEvents (env : Env) : OpCall → List Event
  | .listTables a => (list_tables env a).2
  | .getTableSchema a => (get_table_schema env a).2
  | .readTableRows a => (read_table_rows env a).2
  | .createRecords a => (create_table_records env a).2
  | .updateRecords a => (update_table_records env a).2
  | .deleteRecords a => (delete_table_records env a).2

/-- `needle` occurs as a contiguous substring of `hay`. -/
def containsSub (needle hay : String) : Prop :=
  ∃ s t, hay = s ++ needle ++ t

/-- All operator spellings accepted by the filter switch. -/
def supportedOps : List String := scalarOps ++ ["LIKE", "IN"]

/-- An environment whose connection acquisition fails. -/
def envDown : Env :=
  ⟨false, "Database connection failed: login error",
   fun _ _ => .error "unused", fun _ _ _ => .error "unused"⟩

/-- An environment whose driver returns the synthetic row-count row
`{RowsAffected: 5}` for every statement. -/
def envRowCount : Env :=
  ⟨true, "", fun _ _ => .ok [[("RowsAffected", Value.vInt 5)]],
   fun _ _ _ => .error "unused"⟩

/-- An order_by map with a lowercase direction and an arbitrary string
in direction position. -/
def orderExampleArgs : ReadArgs :=
  { table_name := "T",
    order_by := some [("Age", "desc"), ("Name", "x; DROP TABLE y")] }

/-- The spec example: a single equality filter on Name. -/
def nameFilterArgs : ReadArgs :=
  { table_name := "Users",
    filters := some [("Name", ⟨"=", .scalar (.vStr "Alice")⟩)] }

/-- The spec example: a single IN filter on UserID with two elements. -/
def inFilterArgs : ReadArgs :=
  { table_name := "Users",
    filters := some [("UserID", ⟨"IN", .arr [.vInt 1, .vInt 3]⟩)] }

/-- Two scalar filters, to exhibit the AND join. -/
def twoFilterArgs : ReadArgs :=
  { table_name := "Users",
    filters := some [("Age", ⟨">", .scalar (.vInt 25)⟩),
                     ("UserID", ⟨"=", .scalar (.vInt 1)⟩)] }

/-! Helper lemmas. -/

theorem containsSub_append_right {n h : String} (t : String)
    (hc : containsSub n h) : containsSub n (h ++ t) := by
  rcases hc with ⟨s1, s2, rfl⟩
  exact ⟨s1, s2 ++ t, by rw [String.append_assoc, String.append_assoc]⟩

theorem containsSub_append_left {n h : String} (t : String)
    (hc : containsSub n h) : containsSub n (t ++ h) := by
  rcases hc with ⟨s1, s2, rfl⟩
  exact ⟨t ++ s1, s2, by rw [String.append_assoc, String.append_assoc,
    String.append_assoc]⟩

theorem containsSub_self (n : String) : containsSub n n :=
  ⟨"", "", by rw [String.empty_append, String.append_empty]⟩

theorem containsSub_joinSep (sep c : String) :
    ∀ l : List String, c ∈ l → containsSub c (joinSep sep l)
  | [], h => absurd h (List.not_mem_nil c)
  | [x], h => by
      rcases List.mem_singleton.mp h with rfl
      simpa [joinSep] using containsSub_self c
  | x :: y :: xs, h => by
      rcases List.mem_cons.mp h with rfl | h2
      · have : containsSub c (c ++ sep) :=
          containsSub_append_right sep (containsSub_self c)
        simpa [joinSep, String.append_assoc] using
          containsSub_append_right (joinSep sep (y :: xs)) this
      · have ih := containsSub_joinSep sep c (y :: xs) h2
        simpa [joinSep, String.append_assoc] using
          containsSub_append_left (x ++ sep) ih

/-- The clause produced for the filter entry at position `i` (when it is
kept) is among the rendered WHERE clauses. -/
theorem processFilters_clause_mem :
    ∀ (fl : List (String × FilterClause)) (n i : Nat) (col : String)
      (f : FilterClause) (c : String),
      fl.get? i = some (col, f) → (filterStep (n + i) col f).1 = some c →
      c ∈ (processFilters n fl).1
  | [], _, i, _, _, _, hi, _ => by simp at hi
  | (col0, f0) :: rest, n, 0, col, f, c, hi, hc => by
      simp only [List.get?] at hi
      injection hi with hpair
      injection hpair with h1 h2
      subst h1; subst h2
      simp only [Nat.add_zero] at hc
      simp only [processFilters, hc]
      exact List.mem_cons_self _ _
  | (col0, f0) :: rest, n, i + 1, col, f, c, hi, hc => by
      simp only [List.get?] at hi
      have hc2 : (filterStep ((n + 1) + i) col f).1 = some c := by
        have : (n + 1) + i = n + (i + 1) := by omega
        rw [this]; exact hc
      have ih := processFilters_clause_mem rest (n + 1) i col f c hi hc2
      simp only [processFilters]
      cases hstep : (filterStep n col0 f0).1 with
      | some c0 => exact List.mem_cons_of_mem _ ih
      | none => exact ih

/-- The bindings produced for the filter entry at position `i` appear
as a contiguous block of the bindings list, in order. -/
theorem processFilters_binds_block :
    ∀ (fl : List (String × FilterClause)) (n i : Nat) (col : String)
      (f : FilterClause),
      fl.get? i = some (col, f) →
      ∃ bs1 bs2, (processFilters n fl).2.1 =
        bs1 ++ (filterStep (n + i) col f).2.1 ++ bs2
  | [], _, i, _, _, hi => by simp at hi
  | (col0, f0) :: rest, n, 0, col, f, hi => by
      simp only [List.get?] at hi
      injection hi with hpair
      injection hpair with h1 h2
      subst h1; subst h2
      refine ⟨[], (processFilters (n + 1) rest).2.1, ?_⟩
      simp [processFilters]
  | (col0, f0) :: rest, n, i + 1, col, f, hi => by
      simp only [List.get?] at hi
      have heq : (n + 1) + i = n + (i + 1) := by omega
      obtain ⟨bs1, bs2, hb⟩ :=
        processFilters_binds_block rest (n + 1) i col f hi
      rw [heq] at hb
      refine ⟨(filterStep n col0 f0).2.1 ++ bs1, bs2, ?_⟩
      simp [processFilters, hb]

/-- Any kept WHERE clause occurs in the final SELECT text. -/
theorem clause_in_query (args : ReadArgs) (c : String)
    (hmem : c ∈ (processFilters 0 (args.filters.getD [])).1) :
    containsSub c (buildSelect args).query := by
  have hne : ((processFilters 0 (args.filters.getD [])).1).length > 0 :=
    List.length_pos.mpr (List.ne_nil_of_mem hmem)
  have hwhere : whereClauseOf args =
      " WHERE " ++ joinSep " AND " (processFilters 0 (args.filters.getD [])).1 := by
    unfold whereClauseOf
    simp [hne]
  have h1 : containsSub c
      (joinSep " AND " (processFilters 0 (args.filters.getD [])).1) :=
    containsSub_joinSep _ c _ hmem
  have h2 : containsSub c (whereClauseOf args) := by
    rw [hwhere]; exact containsSub_append_left _ h1
  show containsSub c
    (selectFromClause args ++ whereClauseOf args ++ orderPagSuffix args ++ ";")
  exact containsSub_append_right _ (containsSub_append_right _
    (containsSub_append_left _ h2))

theorem with_connection_events {α : Type} (env : Env) (body : Except String α) :
    ((withConnection env body).2 = [] ∨
       (withConnection env body).2 = [Event.acquire, Event.execute, Event.release])
    ∧ (env.connectOk = false → (withConnection env body).2 = []) := by
  unfold withConnection
  by_cases h : env.connectOk <;> simp [h]

/-! Claim theorems. -/

/-- C1: the spec requires `validateIdentifier` to reject, with
`InvalidIdentifier`, any table or column name outside `[A-Za-z0-9_]+`
before it can reach SQL text.  The code performs no identifier
validation at all: a table name containing `]`, `;` and whitespace is
interpolated raw into the statement, terminating the delimiter early
and landing attacker text in the SQL. -/
theorem c1_unvalidated_identifier_reaches_sql :
    (buildSelect { table_name := "Users]; DROP TABLE Students; --" }).query =
      "SELECT * FROM [Users]; DROP TABLE Students; --];" := by
  rfl

/-- C2: every call to any of the six operations either performs no
connection event at all (validation failure before I/O, or failed
acquisition — nothing is released) or performs exactly
acquire, execute, release in that order: the connection is released on
every exit path and the call never terminates holding a connection. -/
theorem c2_connection_always_released (env : Env) (c : OpCall) :
    (opEvents env c = [] ∨
       opEvents env c = [Event.acquire, Event.execute, Event.release])
    ∧ (env.connectOk = false → opEvents env c = []) := by
  cases c with
  | listTables a =>
      simpa [opEvents, list_tables] using with_connection_events env _
  | getTableSchema a =>
      simpa [opEvents, get_table_schema] using with_connection_events env _
  | readTableRows a =>
      simpa [opEvents, read_table_rows] using with_connection_events env _
  | createRecords a =>
      by_cases h : (a.records.getD []).length = 0
      · simp [opEvents, create_table_records, h]
      · simpa [opEvents, create_table_records, h] using
          with_connection_events env _
  | updateRecords a =>
      by_cases h1 : (a.filters.getD []).length = 0
      · simp [opEvents, update_table_records, h1]
      · by_cases h2 : (a.updates.getD []).length = 0
        · simp [opEvents, update_table_records, h1, h2]
        · simpa [opEvents, update_table_records, h1, h2] using
            with_connection_events env _
  | deleteRecords a =>
      by_cases h : (a.filters.getD []).length = 0
      · simp [opEvents, delete_table_records, h]
      · simpa [opEvents, delete_table_records, h] using
          with_connection_events env _

theorem c2_connection_always_released_witness :
    opEvents envDown (OpCall.readTableRows { table_name := "Users" }) = [] :=
  (c2_connection_always_released envDown
    (OpCall.readTableRows { table_name := "Users" })).2 rfl

/-- C3: an update or delete with an empty (or absent) filters map, and
a create with an empty (or absent) records list, fail with their
validation error carrying an empty event list: no connection is
acquired and no SQL is executed. -/
theorem c3_empty_input_fails_before_io (env : Env) :
    (∀ a : UpdateArgs, a.filters = none ∨ a.filters = some [] →
       update_table_records env a =
         (.error "Filters are required for update operations to prevent accidental full table updates.",
          []))
    ∧ (∀ a : DeleteArgs, a.filters = none ∨ a.filters = some [] →
       delete_table_records env a =
         (.error "Filters are required for delete operations to prevent accidental full table deletion.",
          []))
    ∧ (∀ a : CreateArgs, a.records = none ∨ a.records = some [] →
       create_table_records env a =
         (.error "No records provided to insert.", [])) := by
  refine ⟨?_, ?_, ?_⟩ <;> rintro a (h | h) <;>
    simp [update_table_records, delete_table_records, create_table_records, h]

theorem c3_empty_input_fails_before_io_witness :
    update_table_records envDown
      { table_name := "Customers",
        updates := some [("City", Value.vStr "NY")], filters := some [] } =
      (.error "Filters are required for update operations to prevent accidental full table updates.",
       []) :=
  (c3_empty_input_fails_before_io envDown).1 _ (Or.inr rfl)

/-- C9: an update with non-empty filters but an empty (or absent)
updates map short-circuits before any I/O (empty event list) and
returns a zero-count success. -/
theorem c9_empty_updates_short_circuit (env : Env) (a : UpdateArgs)
    (fl : List (String × Value)) (hf : a.filters = some fl) (hne : fl ≠ [])
    (hu : a.updates = none ∨ a.updates = some []) :
    update_table_records env a =
      (.ok ⟨"Success", .vInt 0, some "No update values provided."⟩, []) := by
  have hlen : ¬ (a.filters.getD []).length = 0 := by
    rw [hf]
    simpa [List.length_eq_zero] using hne
  rcases hu with h | h <;> simp [update_table_records, hlen, h]

theorem c9_empty_updates_short_circuit_witness :
    update_table_records envDown
      { table_name := "Customers", updates := some [],
        filters := some [("CustomerID", Value.vInt 123)] } =
      (.ok ⟨"Success", .vInt 0, some "No update values provided."⟩, []) :=
  c9_empty_updates_short_circuit envDown _ _ rfl (by decide) (Or.inr rfl)

/-- C10: every order_by entry renders as exactly `[column] DESC` when
the uppercased direction equals DESC and exactly `[column] ASC`
otherwise; the caller-supplied direction text itself never reaches the
SQL. -/
theorem c10_order_direction_sanitized (args : ReadArgs)
    (ob : List (String × String)) (hob : args.order_by = some ob) :
    orderClausesOf args = ob.map (fun p => orderClause p.1 p.2)
    ∧ ∀ p ∈ ob,
        (jsToUpper p.2 = "DESC" ∧ orderClause p.1 p.2 = "[" ++ p.1 ++ "] DESC")
        ∨ (jsToUpper p.2 ≠ "DESC" ∧ orderClause p.1 p.2 = "[" ++ p.1 ++ "] ASC") := by
  constructor
  · simp [orderClausesOf, hob]
  · intro p hp
    by_cases h : jsToUpper p.2 = "DESC"
    · refine Or.inl ⟨h, ?_⟩
      have e1 : ("] " ++ "DESC" : String) = "] DESC" := rfl
      simp [orderClause, h, String.append_assoc, e1]
    · refine Or.inr ⟨h, ?_⟩
      have e1 : ("] " ++ "ASC" : String) = "] ASC" := rfl
      simp [orderClause, h, String.append_assoc, e1]

theorem c10_order_direction_sanitized_witness :
    ((jsToUpper "x; DROP TABLE y" = "DESC" ∧
        orderClause "Name" "x; DROP TABLE y" = "[" ++ "Name" ++ "] DESC")
      ∨ (jsToUpper "x; DROP TABLE y" ≠ "DESC" ∧
        orderClause "Name" "x; DROP TABLE y" = "[" ++ "Name" ++ "] ASC")) :=
  (c10_order_direction_sanitized orderExampleArgs _ rfl).2
    ("Name", "x; DROP TABLE y") (by decide)

/-- C7: the UPDATE and DELETE statements end with the trailing
`SELECT @@ROWCOUNT AS RowsAffected` batch, the returned count is
`extractRowsAffected` of the result set (the synthetic row's
`RowsAffected` field), and the count defaults to 0 when the row or the
field is absent. -/
theorem c7_rowcount_extraction :
    (∀ (t : String) (us fs : List (String × Value)),
        ∃ s, (buildUpdateQuery t us fs).1 =
          s ++ "; SELECT @@ROWCOUNT AS RowsAffected;")
    ∧ (∀ (t : String) (fs : List (String × Value)),
        ∃ s, (buildDeleteQuery t fs).1 =
          s ++ "; SELECT @@ROWCOUNT AS RowsAffected;")
    ∧ (∀ (env : Env) (a : UpdateArgs) (us fl : List (String × Value))
        (rs : List Row),
        a.updates = some us → us ≠ [] → a.filters = some fl → fl ≠ [] →
        env.connectOk = true →
        env.exec (buildUpdateQuery a.table_name us fl).1
          (buildUpdateQuery a.table_name us fl).2 = .ok rs →
        update_table_records env a =
          (.ok ⟨"Success", extractRowsAffected rs, none⟩,
           [Event.acquire, Event.execute, Event.release]))
    ∧ (∀ (env : Env) (a : DeleteArgs) (fl : List (String × Value))
        (rs : List Row),
        a.filters = some fl → fl ≠ [] → env.connectOk = true →
        env.exec (buildDeleteQuery a.table_name fl).1
          (buildDeleteQuery a.table_name fl).2 = .ok rs →
        delete_table_records env a =
          (.ok ⟨"Success", extractRowsAffected rs, none⟩,
           [Event.acquire, Event.execute, Event.release]))
    ∧ extractRowsAffected [] = Value.vInt 0
    ∧ (∀ (row : Row) (rest : List Row),
        List.lookup "RowsAffected" row = none →
        extractRowsAffected (row :: rest) = Value.vInt 0) := by
  refine ⟨?_, ?_, ?_, ?_, rfl, ?_⟩
  · intro t us fs
    exact ⟨_, rfl⟩
  · intro t fs
    exact ⟨_, rfl⟩
  · intro env a us fl rs hu hune hf hfne hco hex
    have h1 : ¬ (a.filters.getD []).length = 0 := by
      rw [hf]
      simpa [List.length_eq_zero] using hfne
    have h2 : ¬ (a.updates.getD []).length = 0 := by
      rw [hu]
      simpa [List.length_eq_zero] using hune
    simp [update_table_records, h1, h2, hf, hu, withConnection, hco, hex,
      Except.map, hfne, hune]
  · intro env a fl rs hf hfne hco hex
    have h1 : ¬ (a.filters.getD []).length = 0 := by
      rw [hf]
      simpa [List.length_eq_zero] using hfne
    simp [delete_table_records, h1, hf, withConnection, hco, hex, Except.map,
      hfne]
  · intro row rest h
    simp [extractRowsAffected, h]

theorem c7_rowcount_extraction_witness :
    delete_table_records envRowCount
      { table_name := "Logs", filters := some [("LogLevel", Value.vStr "Error")] } =
      (.ok ⟨"Success", Value.vInt 5, none⟩,
       [Event.acquire, Event.execute, Event.release]) :=
  c7_rowcount_extraction.2.2.2.1 envRowCount _ _ _ rfl (by decide) rfl rfl

/-- C4: with pagination but no order_by entries, the built SELECT gains
the synthetic `ORDER BY (SELECT 1)` and the pagination warning is
emitted; the OFFSET count defaults to 0 when offset is absent, and the
FETCH NEXT fragment is empty whenever limit is absent or non-positive. -/
theorem c4_pagination_without_order (args : ReadArgs)
    (hord : args.order_by = none ∨ args.order_by = some [])
    (hpag : args.limit.isSome ∨ args.offset.isSome) :
    containsSub " ORDER BY (SELECT 1)" (buildSelect args).query
    ∧ paginationWarning ∈ (buildSelect args).warnings
    ∧ (buildSelect args).query =
        selectFromClause args ++ whereClauseOf args ++
          (" ORDER BY (SELECT 1)" ++
            (" OFFSET " ++ toString (args.offset.getD 0) ++ " ROWS" ++
              fetchClause args.limit)) ++ ";"
    ∧ (args.offset = none →
        " OFFSET " ++ toString (args.offset.getD 0) ++ " ROWS" = " OFFSET 0 ROWS")
    ∧ (∀ l : Int, args.limit = some l → l > 0 →
        fetchClause args.limit = " FETCH NEXT " ++ toString l ++ " ROWS ONLY")
    ∧ ((args.limit = none ∨ ∃ l, args.limit = some l ∧ l ≤ 0) →
        fetchClause args.limit = "") := by
  have hords : orderClausesOf args = [] := by
    rcases hord with h | h <;> simp [orderClausesOf, h]
  have hpagB : (args.limit.isSome || args.offset.isSome) = true := by
    rcases hpag with h | h <;> simp [h]
  have hsuffix : orderPagSuffix args =
      " ORDER BY (SELECT 1)" ++
        (" OFFSET " ++ toString (args.offset.getD 0) ++ " ROWS" ++
          fetchClause args.limit) := by
    unfold orderPagSuffix
    rw [hords]
    simp [hpagB]
  have hquery : (buildSelect args).query =
      selectFromClause args ++ whereClauseOf args ++
        (" ORDER BY (SELECT 1)" ++
          (" OFFSET " ++ toString (args.offset.getD 0) ++ " ROWS" ++
            fetchClause args.limit)) ++ ";" := by
    simp only [buildSelect]
    rw [hsuffix]
  have hwarn : orderPagWarnings args = [paginationWarning] := by
    unfold orderPagWarnings
    rw [hords]
    simp [hpagB]
  refine ⟨?_, ?_, hquery, ?_, ?_, ?_⟩
  · refine ⟨selectFromClause args ++ whereClauseOf args,
      (" OFFSET " ++ toString (args.offset.getD 0) ++ " ROWS" ++
        fetchClause args.limit) ++ ";", ?_⟩
    rw [hquery]
    simp [String.append_assoc]
  · simp [buildSelect, hwarn]
  · intro h
    rw [h]
    rfl
  · intro l hl hpos
    rw [hl]
    simp [fetchClause, hpos]
  · rintro (h | ⟨l, hl, hle⟩)
    · simp [fetchClause, h]
    · have hnot : ¬ l > 0 := by omega
      simp [fetchClause, hl, hnot]

theorem c4_pagination_without_order_witness :
    containsSub " ORDER BY (SELECT 1)"
      (buildSelect { table_name := "Users", limit := some 2 }).query
    ∧ paginationWarning ∈
        (buildSelect { table_name := "Users", limit := some 2 }).warnings :=
  ⟨(c4_pagination_without_order
      { table_name := "Users", limit := some 2 } (Or.inl rfl) (Or.inl rfl)).1,
   (c4_pagination_without_order
      { table_name := "Users", limit := some 2 } (Or.inl rfl) (Or.inl rfl)).2.1⟩

/-- C5: an IN filter at position `i` whose value is a non-empty array
renders one placeholder per element, named `filterParam<i>_<j>` from
`j = 0` upward, joined in a parenthesized comma-separated list inside
the built SQL, and each element is bound to its placeholder in order;
on the spec example the full query and bindings are exactly as stated. -/
theorem c5_in_filter_expansion (args : ReadArgs)
    (fl : List (String × FilterClause)) (i : Nat) (col : String)
    (f : FilterClause) (vs : List Value)
    (hfl : args.filters = some fl)
    (hi : fl.get? i = some (col, f))
    (hop : jsToUpper f.operator = "IN")
    (hv : f.value = .arr vs) (hne : vs ≠ []) :
    containsSub
      ("[" ++ col ++ "]" ++ " IN (" ++
        joinSep ", " (vs.enum.map
          (fun p => "@" ++ ("filterParam" ++ toString i) ++ "_" ++ toString p.1)) ++ ")")
      (buildSelect args).query
    ∧ (∃ bs1 bs2, (buildSelect args).bindings =
        bs1 ++ vs.enum.map
          (fun p => ⟨("filterParam" ++ toString i) ++ "_" ++ toString p.1,
                     .scalar p.2, none⟩) ++ bs2)
    ∧ (buildSelect inFilterArgs).query =
        "SELECT * FROM [Users] WHERE [UserID] IN (@filterParam0_0, @filterParam0_1);"
    ∧ (buildSelect inFilterArgs).bindings =
        [⟨"filterParam0_0", .scalar (.vInt 1), none⟩,
         ⟨"filterParam0_1", .scalar (.vInt 3), none⟩] := by
  have hnotScalar : ("IN" : String) ∉ scalarOps := by decide
  have hnotLike : ¬ ("IN" : String) = "LIKE" := by decide
  have hlen : vs.length > 0 := List.length_pos.mpr hne
  have hstep : filterStep (0 + i) col f =
      (some ("[" ++ col ++ "]" ++ " IN (" ++
          joinSep ", " (vs.enum.map
            (fun p => "@" ++ ("filterParam" ++ toString i) ++ "_" ++ toString p.1)) ++ ")"),
       vs.enum.map
         (fun p => ⟨("filterParam" ++ toString i) ++ "_" ++ toString p.1,
                    .scalar p.2, none⟩),
       []) := by
    simp [filterStep, hop, hnotScalar, hnotLike, hv, hlen]
  refine ⟨?_, ?_, rfl, rfl⟩
  · apply clause_in_query
    rw [hfl]
    exact processFilters_clause_mem fl 0 i col f _ hi (by rw [hstep])
  · obtain ⟨bs1, bs2, hb⟩ := processFilters_binds_block fl 0 i col f hi
    rw [hstep] at hb
    refine ⟨bs1, bs2, ?_⟩
    show (processFilters 0 (args.filters.getD [])).2.1 = _
    rw [hfl]
    exact hb

theorem c5_in_filter_expansion_witness :
    containsSub
      ("[" ++ "UserID" ++ "]" ++ " IN (" ++
        joinSep ", " (([Value.vInt 1, Value.vInt 3]).enum.map
          (fun p => "@" ++ ("filterParam" ++ toString 0) ++ "_" ++ toString p.1)) ++ ")")
      (buildSelect inFilterArgs).query :=
  (c5_in_filter_expansion inFilterArgs _ 0 "UserID"
    ⟨"IN", .arr [.vInt 1, .vInt 3]⟩ [Value.vInt 1, Value.vInt 3]
    rfl rfl (by decide) rfl (by decide)).1

/-- C6: a filter clause whose operator is outside the supported set, or
an IN clause whose value is an empty array or not an array, is dropped
with a warning instead of failing: it contributes no clause and no
binding, the remaining entries are processed exactly as before (the
parameter index still advances past the dropped entry), and the query
still executes successfully. -/
theorem c6_unsupported_clause_dropped :
    (∀ (n : Nat) (col : String) (f : FilterClause),
        jsToUpper f.operator ∉ supportedOps →
        filterStep n col f = (none, [], [unsupportedWarning f.operator col]))
    ∧ (∀ (n : Nat) (col : String) (f : FilterClause),
        jsToUpper f.operator = "IN" →
        (f.value = .arr [] ∨ ∃ v, f.value = .scalar v) →
        filterStep n col f = (none, [], [inWarning col f.value]))
    ∧ (∀ (n : Nat) (col : String) (f : FilterClause) (ws : List String)
        (rest : List (String × FilterClause)),
        filterStep n col f = (none, [], ws) →
        processFilters n ((col, f) :: rest) =
          ((processFilters (n + 1) rest).1,
           (processFilters (n + 1) rest).2.1,
           ws ++ (processFilters (n + 1) rest).2.2))
    ∧ (∀ (env : Env) (args : ReadArgs) (rs : List Row),
        env.connectOk = true →
        env.exec (buildSelect args).query (buildSelect args).bindings = .ok rs →
        read_table_rows env args =
          (.ok rs, [Event.acquire, Event.execute, Event.release])) := by
  refine ⟨?_, ?_, ?_, ?_⟩
  · intro n col f h
    have h1 : jsToUpper f.operator ∉ scalarOps := fun hc =>
      h (by simp [supportedOps, hc])
    have h2 : ¬ jsToUpper f.operator = "LIKE" := fun hc =>
      h (by rw [hc]; decide)
    have h3 : ¬ jsToUpper f.operator = "IN" := fun hc =>
      h (by rw [hc]; decide)
    simp [filterStep, h1, h2, h3]
  · intro n col f hop hv
    have h1 : ("IN" : String) ∉ scalarOps := by decide
    have h2 : ¬ ("IN" : String) = "LIKE" := by decide
    rcases hv with h | ⟨v, h⟩ <;> simp [filterStep, hop, h1, h2, h]
  · intro n col f ws rest hstep
    simp [processFilters, hstep]
  · intro env args rs hco hex
    simp [read_table_rows, withConnection, hco, hex]

theorem c6_unsupported_clause_dropped_witness :
    filterStep 0 "A" ⟨"BETWEEN", .scalar (.vInt 1)⟩ =
      (none, [], [unsupportedWarning "BETWEEN" "A"]) :=
  c6_unsupported_clause_dropped.1 0 "A" ⟨"BETWEEN", .scalar (.vInt 1)⟩
    (by decide)

/-- C8: a filter entry at position `i` with a supported scalar
comparison operator renders as `[column] <operator> @filterParam<i>`
(the placeholder index follows filter insertion order), the value is
bound to the placeholder rather than inlined in the SQL, and multiple
rendered clauses are joined with ` AND ` (exhibited exactly on a
two-filter request). -/
theorem c8_scalar_filter_rendering (args : ReadArgs)
    (fl : List (String × FilterClause)) (i : Nat) (col : String)
    (f : FilterClause)
    (hfl : args.filters = some fl)
    (hi : fl.get? i = some (col, f))
    (hop : jsToUpper f.operator ∈ scalarOps) :
    containsSub
      ("[" ++ col ++ "]" ++ " " ++ f.operator ++ " @" ++
        ("filterParam" ++ toString i))
      (buildSelect args).query
    ∧ (∃ bs1 bs2, (buildSelect args).bindings =
        bs1 ++ [⟨"filterParam" ++ toString i, f.value, none⟩] ++ bs2)
    ∧ (buildSelect twoFilterArgs).query =
        "SELECT * FROM [Users] WHERE [Age] > @filterParam0 AND [UserID] = @filterParam1;"
    ∧ (buildSelect nameFilterArgs).query =
        "SELECT * FROM [Users] WHERE [Name] = @filterParam0;"
    ∧ (buildSelect nameFilterArgs).bindings =
        [⟨"filterParam0", .scalar (.vStr "Alice"), none⟩] := by
  have hstep : filterStep (0 + i) col f =
      (some ("[" ++ col ++ "]" ++ " " ++ f.operator ++ " @" ++
          ("filterParam" ++ toString i)),
       [⟨"filterParam" ++ toString i, f.value, none⟩], []) := by
    simp [filterStep, hop]
  refine ⟨?_, ?_, rfl, rfl, rfl⟩
  · apply clause_in_query
    rw [hfl]
    exact processFilters_clause_mem fl 0 i col f _ hi (by rw [hstep])
  · obtain ⟨bs1, bs2, hb⟩ := processFilters_binds_block fl 0 i col f hi
    rw [hstep] at hb
    refine ⟨bs1, bs2, ?_⟩
    show (processFilters 0 (args.filters.getD [])).2.1 = _
    rw [hfl]
    exact hb

theorem c8_scalar_filter_rendering_witness :
    containsSub
      ("[" ++ "Name" ++ "]" ++ " " ++ "=" ++ " @" ++
        ("filterParam" ++ toString 0))
      (buildSelect nameFilterArgs).query :=
  (c8_scalar_filter_rendering nameFilterArgs _ 0 "Name"
    ⟨"=", .scalar (.vStr "Alice")⟩ rfl rfl (by decide)).1

end Mssql
